import Mathlib

/-
Shallow embedding of the chronos-go client (package chronos: chronos.go and
the operations/formatter file) and proofs about its request pipeline and
schedule formatter.

Modelling conventions:
- Go strings are Lean `String`s; Go `time.Time` is modelled abstractly by
  `GoTime` (its `IsZero` test and its RFC3339Nano rendering, both platform
  capabilities from this client's point of view).
- The transport (net/http) and JSON codec (encoding/json) are capabilities:
  a transport round trip is a `TransportResult` value supplied to the
  executor, and a JSON decoder is a function `String -> Except String a`.
- The mutable `client.URL` (`net/url.URL`) is decomposed into scheme, host,
  path and a parsed query list; `url.Values.Encode`'s canonical key ordering
  is not modelled (the spec forbids relying on parameter order), only which
  key/value pairs are present, which is what the claims are about.
-/

namespace ChronosGo

/-- Constants to represent HTTP verbs (source: chronos.go). -/
def HTTPGet : String := "GET"

def HTTPPut : String := "PUT"

def HTTPDelete : String := "DELETE"

def HTTPPost : String := "POST"

/-- BasicAuth: a basic credential (source: chronos.go). -/
structure BasicAuth where
  Username : String
  Password : String
deriving DecidableEq

/-- The Chronos HTTP client state (source: chronos.go, struct Chronos).
The Go field `URL *url.URL` is decomposed into `urlScheme`, `urlHost`,
`urlPath`, `urlQuery` (the parsed form of `URL.RawQuery`); the `http`
transport handle is a capability and not part of the modelled state. -/
structure Chronos where
  urlScheme : String
  urlHost : String
  urlPath : String
  urlQuery : List (String × String)
  Debug : Bool
  RequestTimeout : Int
  APIPrefix : String
  basicAuth : BasicAuth
deriving DecidableEq

/-- DefaultChronos: default Chronos object with endpoint
http://127.0.0.1:4400 (source: chronos.go). Unset Go fields take their
zero values. -/
def DefaultChronos : Chronos :=
  ⟨"http", "127.0.0.1:4400", "", [], false, 5, "", ⟨"", ""⟩⟩

/-- Models Go `path.Join` on the two segments this client joins: empty
elements are dropped and the rest joined with "/". The further `path.Clean`
normalisation is not exercised by this client (all inputs are already
clean slash-separated literals). -/
def goPathJoin (a b : String) : String :=
  if a = "" then b else if b = "" then a else a ++ "/" ++ b

/-- buildURL (source: chronos.go lines 113-121). Faithful to the source's
mutation of the one shared URL: the new query is the URL's EXISTING query
with this call's parameters added (`query := client.URL.Query()` followed
by `query.Add`), and the path is overwritten with the joined root + uri. -/
def buildURL (client : Chronos) (uri : String)
    (queryParams : List (String × String)) : Chronos :=
  { client with
      urlQuery := client.urlQuery ++ queryParams,
      urlPath := goPathJoin client.APIPrefix uri }

/-- The observable request handed to the transport by `newRequest` /
`httpCall`: the verb, the client URL at send time, and the body text. -/
structure SentRequest where
  method : String
  scheme : String
  host : String
  path : String
  query : List (String × String)
  body : String
deriving DecidableEq

/-- The request-building half of `apiCall` (source: chronos.go line 91
plus `newRequest`): mutate the client URL via `buildURL`, then send a
request at that URL. Returns the mutated client and the sent request. -/
def apiCallBuild (client : Chronos) (method uri : String)
    (queryParams : List (String × String)) (body : String) :
    Chronos × SentRequest :=
  let c := buildURL client uri queryParams
  (c, ⟨method, c.urlScheme, c.urlHost, c.urlPath, c.urlQuery, body⟩)

/-- Constants defining the various chronos endpoints (source: the
operations file). -/
def ChronosAPIJob : String := "scheduler/job"

def ChronosAPIJobs : String := "scheduler/jobs"

def ChronosAPIJobsSearch : String := "scheduler/jobs/search"

def ChronosAPIKillJobTask : String := "scheduler/task/kill"

def ChronosAPIAddScheduledJob : String := "scheduler/iso8601"

def ChronosAPIAddDependentJob : String := "scheduler/dependency"

/-- Container: chronos container struct. The Go field `Type` is renamed
`type_` (its JSON tag is "type"); Go `[]map[string]string` values are
modelled as lists of association lists. -/
structure Container where
  type_ : String
  Image : String
  Network : String
  Volumes : List (List (String × String))
  Parameters : List (List (String × String))

/-- Job: chronos job struct (source: the operations file), field for
field. Go `float32` fields are carried as `Float` (they are only ever
carried, never computed on). -/
structure Job where
  Name : String
  Command : String
  Shell : Bool
  Epsilon : String
  Executor : String
  ExecutorFlags : String
  Retries : Int
  Owner : String
  OwnerName : String
  Description : String
  Async : Bool
  SuccessCount : Int
  ErrorCount : Int
  LastSuccess : String
  LastError : String
  CPUs : Float
  Disk : Float
  Mem : Float
  Disabled : Bool
  SoftError : Bool
  DataProcessingJobType : Bool
  ErrorsSinceLastSuccess : Int
  URIs : List String
  EnvironmentVariables : List (List (String × String))
  Arguments : List String
  HighPriority : Bool
  RunAsUser : String
  Container : Option Container
  Schedule : String
  ScheduleTimeZone : String
  Constraints : List (List String)
  Parents : List String

/-- Jobs: slice of Job. -/
def Jobs : Type := List Job

/-- Models Go `strings.HasPrefix`: the first argument begins with the
second. Stated on the character lists so proofs can compute. -/
def goHasPrefix (s pre : String) : Bool :=
  pre.toList.isPrefixOf s.toList

/-- Models Go `unicode.IsSpace` (the rune set `strings.TrimSpace` trims):
ASCII whitespace, NEL, NBSP and the Unicode White_Space code points. -/
def goIsSpace (c : Char) : Bool :=
  let n := c.toNat
  (decide (0x09 ≤ n) && decide (n ≤ 0x0D)) || decide (n = 0x20) ||
    decide (n = 0x85) || decide (n = 0xA0) || decide (n = 0x1680) ||
    (decide (0x2000 ≤ n) && decide (n ≤ 0x200A)) || decide (n = 0x2028) ||
    decide (n = 0x2029) || decide (n = 0x202F) || decide (n = 0x205F) ||
    decide (n = 0x3000)

/-- Models Go `strings.TrimSpace`: drop leading and trailing whitespace. -/
def goTrimSpace (s : String) : String :=
  ⟨(((s.toList.dropWhile goIsSpace).reverse).dropWhile goIsSpace).reverse⟩

/-- The stateful request-building view of `Jobs()` (source: the operations
file): one GET of `ChronosAPIJobs` with no query parameters and no body,
threaded through the shared client URL state. -/
def JobsCall (client : Chronos) : Chronos × SentRequest :=
  apiCallBuild client HTTPGet ChronosAPIJobs [] ""

/-- The stateful request-building view of `SearchJobs` (source: the
operations file): a blank/whitespace-only name fails before any request is
built; otherwise one GET of `ChronosAPIJobsSearch` with the `name` query
parameter is issued. -/
def SearchJobs (client : Chronos) (name : String) :
    Chronos × Except String SentRequest :=
  if (goTrimSpace name).length == 0 then
    (client, Except.error "[SearchJobs] missing name argument")
  else
    let (c, r) := apiCallBuild client HTTPGet ChronosAPIJobsSearch
      [("name", name)] ""
    (c, Except.ok r)

/-- The value-level view of an `apiPost` call (source: chronos.go): the
verb, the resource uri, the query parameters and the Job value handed to
the JSON serializer as the body. -/
structure PostCall where
  method : String
  uri : String
  queryParams : List (String × String)
  postData : Job

/-- apiPost (source: chronos.go line 79): a POST of `postData` to `uri`. -/
def apiPost (uri : String) (queryParams : List (String × String))
    (postData : Job) : PostCall :=
  ⟨HTTPPost, uri, queryParams, postData⟩

/-- RunOnceNowSchedule (source: the operations file): a schedule that
starts immediately, runs once, and retries every 2 minutes. -/
def RunOnceNowSchedule : String := "R1//PT2M"

/-- AddScheduledJob (source: the operations file). -/
def AddScheduledJob (job : Job) : PostCall :=
  apiPost ChronosAPIAddScheduledJob [] job

/-- AddDependentJob (source: the operations file). -/
def AddDependentJob (job : Job) : PostCall :=
  apiPost ChronosAPIAddDependentJob [] job

/-- RunOnceNowJob (source: the operations file): set the job's Schedule to
`RunOnceNowSchedule` and its Epsilon to "PT10M", then delegate to
AddScheduledJob. -/
def RunOnceNowJob (job : Job) : PostCall :=
  AddScheduledJob { job with Schedule := RunOnceNowSchedule, Epsilon := "PT10M" }

/-- UnscheduleJob (source: the operations file): set the job's Schedule to
"R0//PT0M" and post it to the add-scheduled-job endpoint. -/
def UnscheduleJob (job : Job) : PostCall :=
  apiPost ChronosAPIAddScheduledJob [] { job with Schedule := "R0//PT0M" }

/-- Abstract model of Go `time.Time`: its `IsZero()` test and its
`Format(time.RFC3339Nano)` rendering, both platform capabilities. -/
structure GoTime where
  isZero : Bool
  rfc3339Nano : String

/-- formatTimeString (source: the operations file lines 260-266). -/
def formatTimeString (t : GoTime) : String :=
  if t.isZero then "" else t.rfc3339Nano

/-- validateReps (source: the operations file lines 244-250): `none` means
the argument passed validation, `some e` the validation error text. -/
def validateReps (reps : String) : Option String :=
  if goHasPrefix reps "R" then none
  else some "Repetitions string not formatted correctly"

/-- validateInterval (source: the operations file lines 252-258). -/
def validateInterval (interval : String) : Option String :=
  if goHasPrefix interval "P" then none
  else some "Interval string not formatted correctly"

/-- FormatSchedule (source: the operations file lines 147-159). -/
def FormatSchedule (startTime : GoTime) (interval reps : String) :
    Except String String :=
  match validateInterval interval with
  | some e => Except.error e
  | none =>
    match validateReps reps with
    | some e => Except.error e
    | none =>
      Except.ok (reps ++ "/" ++ formatTimeString startTime ++ "/" ++ interval)

/-- The response of a completed transport round trip (net/http.Response
as seen by `apiCall`): numeric code, status line, declared ContentLength
(0 for an empty body, possibly -1 when unknown) and the body text. -/
structure HTTPResponse where
  statusCode : Nat
  status : String
  contentLength : Int
  body : String
deriving DecidableEq

/-- Outcome of `httpCall` (source: chronos.go lines 143-157): either a
transport failure with no response, or a completed response. -/
inductive TransportResult where
  | fail (msg : String)
  | ok (resp : HTTPResponse)
deriving DecidableEq

/-- The error taxonomy of one executed call, by origin. -/
inductive CallError where
  | transport (msg : String)
  | decode (msg : String)
  | service (statusLine : String)
deriving DecidableEq

/-- Go `err.Error()` on a CallError: its carried message text. -/
def errorText : CallError → String
  | CallError.transport m => m
  | CallError.decode m => m
  | CallError.service line => line

/-- The `(int, error)` pair returned by `apiCall` together with the final
content of the caller's result slot. -/
structure ApiCallResult (α : Type) where
  status : Nat
  error : Option CallError
  slot : α
deriving DecidableEq

/-- apiCall, the executor half (source: chronos.go lines 90-111), with the
transport round trip and the JSON decoder as capabilities. A transport
failure returns status 0. Otherwise: if ContentLength is not 0 the body is
decoded into the result slot (a decode failure fails the call at the
response's status code); only then is the status classified, codes outside
[200,299] failing with the status line. Partial writes to the slot by a
failed Go decode are not modelled; no claim depends on them. -/
def apiCall {α : Type} (decode : String → Except String α) (slot : α)
    (tr : TransportResult) : ApiCallResult α :=
  match tr with
  | TransportResult.fail msg => ⟨0, some (CallError.transport msg), slot⟩
  | TransportResult.ok resp =>
    let decoded := if resp.contentLength ≠ 0 then decode resp.body
      else Except.ok slot
    match decoded with
    | Except.error e => ⟨resp.statusCode, some (CallError.decode e), slot⟩
    | Except.ok v =>
      if resp.statusCode < 200 ∨ resp.statusCode > 299 then
        ⟨resp.statusCode, some (CallError.service resp.status), v⟩
      else
        ⟨resp.statusCode, none, v⟩

/-- The executor view of `Jobs()` (source: the operations file lines
167-178): one GET whose result slot starts as the empty job list; on error
the error is propagated, otherwise the decoded list is returned. -/
def JobsOp (decode : String → Except String (List Job))
    (tr : TransportResult) : Except CallError (List Job) :=
  let r := apiCall decode ([] : List Job) tr
  match r.error with
  | some e => Except.error e
  | none => Except.ok r.slot

/-- Init (source: chronos.go lines 51-62): perform the `Jobs()` call once
as a reachability probe; on failure return its error text behind the
connectivity message, on success return no error (`none`). The single
`TransportResult` argument is the one round trip Init performs. -/
def Init (decode : String → Except String (List Job))
    (tr : TransportResult) : Option String :=
  match JobsOp decode tr with
  | Except.error e =>
    some ("Could not reach chronos cluster: " ++ errorText e)
  | Except.ok _ => none

/-- An ASCII decimal digit, stated on the code point so proofs compute. -/
def goIsDigit (c : Char) : Bool :=
  decide (48 ≤ c.toNat) && decide (c.toNat ≤ 57)

/-- Follows the spec's words for claim C2 only: `repetitions` must match
the grammar `R<digits-or-empty>` — an "R" followed only by zero or more
digits. Compared against the source's `validateReps`. -/
def specRepsGrammar (s : String) : Bool :=
  goHasPrefix s "R" && (s.toList.drop 1).all goIsDigit

/-- Helper: everything surviving `dropWhile p` satisfies `p` exactly when
everything in the list does (the dropped elements satisfy `p` anyway). -/
theorem all_dropWhile_iff {α : Type} (p : α → Bool) (l : List α) :
    (∀ x ∈ l.dropWhile p, p x = true) ↔ (∀ x ∈ l, p x = true) := by
  constructor
  · intro h x hx
    have hsplit : x ∈ l.takeWhile p ++ l.dropWhile p := by
      rw [List.takeWhile_append_dropWhile]; exact hx
    rcases List.mem_append.mp hsplit with h1 | h2
    · exact List.mem_takeWhile_imp h1
    · exact h x h2
  · intro h x hx
    refine h x ?_
    rw [← List.takeWhile_append_dropWhile (p := p) (l := l)]
    exact List.mem_append.mpr (Or.inr hx)

/-- Helper: trimming yields the empty string exactly when every character
of the string is whitespace (vacuously, when the string is empty). -/
theorem goTrimSpace_empty_iff (s : String) :
    (goTrimSpace s = "") ↔ s.toList.all goIsSpace = true := by
  unfold goTrimSpace
  rw [show ("" : String) = ⟨[]⟩ from rfl]
  rw [String.ext_iff]
  simp only [List.reverse_eq_nil_iff, List.dropWhile_eq_nil_iff,
    List.mem_reverse, List.all_eq_true]
  exact all_dropWhile_iff goIsSpace s.toList

/-- Helper: the byte-length test `len(s) == 0` used by the source is the
same as being the empty string. -/
theorem string_length_beq_zero (s : String) :
    ((s.length == 0) = true) ↔ s = "" := by
  cases s with
  | mk data =>
    cases data with
    | nil => simp [String.length]
    | cons c cs => simp [String.length, String.ext_iff]

/-- C1: the claim says no query parameter is carried over from an earlier
call on the same client. The code violates this: `buildURL` mutates the
one shared client URL and re-reads its existing query, so after
`SearchJobs client "foo"` the next `Jobs()` call is built with the stale
`name=foo` query parameter even though `Jobs()` passes no parameters.
This theorem evaluates the code at that failing input. -/
theorem c1_query_carryover :
    ((JobsCall (SearchJobs { DefaultChronos with APIPrefix := "v1" } "foo").1).2).query
        = [("name", "foo")] ∧
    ((JobsCall (SearchJobs { DefaultChronos with APIPrefix := "v1" } "foo").1).2).path
        = "v1/scheduler/jobs" := by
  exact ⟨rfl, rfl⟩

/-- C2 counterexample: the claim says FormatSchedule fails whenever `reps`
does not match the grammar `R<digits-or-empty>`. At reps = "Rx" (which
does not match that grammar) and interval = "PT2M", the code succeeds:
`validateReps` only checks for a leading "R". -/
theorem c2_counterexample :
    specRepsGrammar "Rx" = false ∧
    FormatSchedule ⟨true, ""⟩ "PT2M" "Rx" = Except.ok "Rx//PT2M" := by
  exact ⟨by decide, rfl⟩

/-- C2 amended: FormatSchedule fails with a validation error exactly when
`reps` does not begin with "R" or `interval` does not begin with "P"; for
every reps beginning with "R" and interval beginning with "P" it succeeds,
regardless of the rest of either argument. -/
theorem c2_amended (t : GoTime) (interval reps : String) :
    (∃ e, FormatSchedule t interval reps = Except.error e) ↔
      ¬(goHasPrefix reps "R" = true ∧ goHasPrefix interval "P" = true) := by
  cases hi : goHasPrefix interval "P" <;>
    cases hr : goHasPrefix reps "R" <;>
      simp [FormatSchedule, validateInterval, validateReps, hi, hr]

/-- C3: whenever both arguments pass validation, FormatSchedule returns
reps ++ "/" ++ renderedStart ++ "/" ++ interval, where renderedStart is
empty for the zero instant and the RFC3339Nano rendering otherwise. -/
theorem c3_format_schedule (t : GoTime) (interval reps : String)
    (hr : validateReps reps = none) (hi : validateInterval interval = none) :
    FormatSchedule t interval reps =
      Except.ok (reps ++ "/" ++ (if t.isZero then "" else t.rfc3339Nano)
        ++ "/" ++ interval) := by
  simp [FormatSchedule, hi, hr, formatTimeString]

/-- C3 witness: concrete run at reps = "R5", interval = "P1D" and a
non-zero start instant. -/
theorem c3_format_schedule_witness :
    FormatSchedule ⟨false, "2023-01-01T00:00:00Z"⟩ "P1D" "R5" =
      Except.ok ("R5" ++ "/" ++
        (if (⟨false, "2023-01-01T00:00:00Z"⟩ : GoTime).isZero then ""
          else (⟨false, "2023-01-01T00:00:00Z"⟩ : GoTime).rfc3339Nano)
        ++ "/" ++ "P1D") :=
  c3_format_schedule ⟨false, "2023-01-01T00:00:00Z"⟩ "P1D" "R5" rfl rfl

/-- C6: RunOnceNowJob posts to the add-scheduled-job endpoint a Job whose
Schedule is "R1//PT2M" and Epsilon "PT10M"; UnscheduleJob posts to the
same endpoint a Job whose Schedule is "R0//PT0M"; in both, restoring the
overwritten fields to the caller's values gives back exactly the caller's
Job, i.e. no other field changed. -/
theorem c6_run_once_unschedule (job : Job) :
    (RunOnceNowJob job).method = HTTPPost ∧
    (RunOnceNowJob job).uri = ChronosAPIAddScheduledJob ∧
    (RunOnceNowJob job).postData.Schedule = "R1//PT2M" ∧
    (RunOnceNowJob job).postData.Epsilon = "PT10M" ∧
    { (RunOnceNowJob job).postData with
        Schedule := job.Schedule, Epsilon := job.Epsilon } = job ∧
    (UnscheduleJob job).method = HTTPPost ∧
    (UnscheduleJob job).uri = ChronosAPIAddScheduledJob ∧
    (UnscheduleJob job).postData.Schedule = "R0//PT0M" ∧
    { (UnscheduleJob job).postData with Schedule := job.Schedule } = job :=
  ⟨rfl, rfl, rfl, rfl, rfl, rfl, rfl, rfl, rfl⟩

/-- C7: a completed round trip with status 200 and an empty body succeeds
with no error, the result slot is left exactly at its caller-provided
value, and the decoder is never consulted (the statement holds for every
decoder). -/
theorem c7_empty_body {α : Type} (decode : String → Except String α)
    (slot : α) (resp : HTTPResponse)
    (h1 : resp.statusCode = 200) (h2 : resp.contentLength = 0) :
    apiCall decode slot (TransportResult.ok resp) = ⟨200, none, slot⟩ := by
  simp [apiCall, h1, h2]

/-- C7 witness: a 200/empty-body response with a decoder that would fail
if it were ever consulted. -/
theorem c7_empty_body_witness :
    apiCall (fun _ => Except.error "never consulted") (5 : Nat)
      (TransportResult.ok ⟨200, "200 OK", 0, ""⟩) = ⟨200, none, 5⟩ :=
  c7_empty_body (fun _ => Except.error "never consulted") 5
    ⟨200, "200 OK", 0, ""⟩ rfl rfl

/-- C4: on every completed response with a non-empty body, decoding is
attempted before status classification: a decode failure fails the call
with the decoding error whatever the status (in particular even when it
is in [200,299]), and on a non-2xx status whose body decodes, the decoded
value is placed in the result slot alongside the service error. -/
theorem c4_decode_before_status {α : Type} (decode : String → Except String α)
    (slot : α) (resp : HTTPResponse) (h : resp.contentLength ≠ 0) :
    (∀ e, decode resp.body = Except.error e →
      apiCall decode slot (TransportResult.ok resp) =
        ⟨resp.statusCode, some (CallError.decode e), slot⟩) ∧
    (∀ v, decode resp.body = Except.ok v →
      (resp.statusCode < 200 ∨ resp.statusCode > 299) →
      apiCall decode slot (TransportResult.ok resp) =
        ⟨resp.statusCode, some (CallError.service resp.status), v⟩) := by
  constructor
  · intro e he
    simp [apiCall, h, he]
  · intro v hv hs
    simp [apiCall, h, hv, hs]

/-- C4 witness: a decode failure on a 200 response fails the call with
the decoding error, and a 500 response whose body decodes to 7 places 7
in the slot alongside the service error. -/
theorem c4_decode_before_status_witness :
    apiCall (fun _ => Except.error "unexpected end of JSON input") (0 : Nat)
        (TransportResult.ok ⟨200, "200 OK", 2, "no"⟩) =
      ⟨200, some (CallError.decode "unexpected end of JSON input"), 0⟩ ∧
    apiCall (fun _ => Except.ok (7 : Nat)) 0
        (TransportResult.ok ⟨500, "500 Internal Server Error", 2, "ok"⟩) =
      ⟨500, some (CallError.service "500 Internal Server Error"), 7⟩ :=
  ⟨(c4_decode_before_status (fun _ => Except.error "unexpected end of JSON input")
      0 ⟨200, "200 OK", 2, "no"⟩ (by decide)).1
      "unexpected end of JSON input" rfl,
   (c4_decode_before_status (fun _ => Except.ok (7 : Nat))
      0 ⟨500, "500 Internal Server Error", 2, "ok"⟩ (by decide)).2
      7 rfl (by decide)⟩

/-- C5 counterexample: the claim says a completed round trip succeeds if
and only if the status is in [200,299], regardless of whether a body was
present or decoded. At a 200 response whose non-empty body fails to
decode, the call fails with the decoding error, refuting the claim. -/
theorem c5_counterexample :
    ((200 : Nat) ≥ 200 ∧ (200 : Nat) ≤ 299) ∧
    (apiCall (fun _ => Except.error "invalid character") (0 : Nat)
        (TransportResult.ok ⟨200, "200 OK", 5, "xxxxx"⟩)).error =
      some (CallError.decode "invalid character") := by
  exact ⟨by decide, by decide⟩

/-- C5 amended: for every completed round trip whose body, when
non-empty, decodes successfully, the call succeeds exactly when the
status is in [200,299]; any other status yields a failure whose detail is
the server's status line; and the raw numeric status code is returned
alongside in every case. -/
theorem c5_amended {α : Type} (decode : String → Except String α) (slot : α)
    (resp : HTTPResponse)
    (h : resp.contentLength = 0 ∨ ∃ v, decode resp.body = Except.ok v) :
    ((apiCall decode slot (TransportResult.ok resp)).error = none ↔
      200 ≤ resp.statusCode ∧ resp.statusCode ≤ 299) ∧
    ((resp.statusCode < 200 ∨ resp.statusCode > 299) →
      (apiCall decode slot (TransportResult.ok resp)).error =
        some (CallError.service resp.status)) ∧
    (apiCall decode slot (TransportResult.ok resp)).status =
      resp.statusCode := by
  have key : ∃ w, apiCall decode slot (TransportResult.ok resp) =
      if resp.statusCode < 200 ∨ resp.statusCode > 299 then
        ⟨resp.statusCode, some (CallError.service resp.status), w⟩
      else ⟨resp.statusCode, none, w⟩ := by
    rcases h with h | ⟨v, hv⟩
    · exact ⟨slot, by simp [apiCall, h]⟩
    · by_cases hcl : resp.contentLength = 0
      · exact ⟨slot, by simp [apiCall, hcl]⟩
      · exact ⟨v, by simp [apiCall, hcl, hv]⟩
  rcases key with ⟨w, hw⟩
  rw [hw]
  by_cases hc : resp.statusCode < 200 ∨ resp.statusCode > 299
  · rw [if_pos hc]
    refine ⟨?_, fun _ => rfl, rfl⟩
    constructor
    · intro hnone; simp at hnone
    · intro hrange; exact absurd hrange (by omega)
  · rw [if_neg hc]
    refine ⟨?_, fun hbad => absurd hbad hc, rfl⟩
    constructor
    · intro _; omega
    · intro _; rfl

/-- C5 witness: a 404 with an empty body fails with the status line as
the error detail. -/
theorem c5_amended_witness :
    (apiCall (fun _ => Except.ok (0 : Nat)) 0
        (TransportResult.ok ⟨404, "404 Not Found", 0, ""⟩)).error =
      some (CallError.service "404 Not Found") :=
  (c5_amended (fun _ => Except.ok (0 : Nat)) 0
      ⟨404, "404 Not Found", 0, ""⟩ (Or.inl rfl)).2.1 (by decide)

/-- C10: when a response has both a non-empty body that fails to decode
and a status outside [200,299], the call fails with the decoding error,
not the service error, while the raw status code is still returned. -/
theorem c10_decode_error_precedence {α : Type}
    (decode : String → Except String α) (slot : α) (resp : HTTPResponse)
    (e : String) (h1 : resp.contentLength ≠ 0)
    (h2 : decode resp.body = Except.error e)
    (_h3 : resp.statusCode < 200 ∨ resp.statusCode > 299) :
    (apiCall decode slot (TransportResult.ok resp)).error =
      some (CallError.decode e) ∧
    (apiCall decode slot (TransportResult.ok resp)).error ≠
      some (CallError.service resp.status) ∧
    (apiCall decode slot (TransportResult.ok resp)).status =
      resp.statusCode := by
  simp [apiCall, h1, h2]

/-- C10 witness: a 500 response with an unknown-length (-1) malformed
body fails with the decoding error while still reporting status 500. -/
theorem c10_decode_error_precedence_witness :
    (apiCall (fun _ => Except.error "invalid character") (0 : Nat)
        (TransportResult.ok ⟨500, "500 Internal Server Error", -1, "not json"⟩)).error =
      some (CallError.decode "invalid character") ∧
    (apiCall (fun _ => Except.error "invalid character") (0 : Nat)
        (TransportResult.ok ⟨500, "500 Internal Server Error", -1, "not json"⟩)).error ≠
      some (CallError.service "500 Internal Server Error") ∧
    (apiCall (fun _ => Except.error "invalid character") (0 : Nat)
        (TransportResult.ok ⟨500, "500 Internal Server Error", -1, "not json"⟩)).status =
      500 :=
  c10_decode_error_precedence (fun _ => Except.error "invalid character") 0
    ⟨500, "500 Internal Server Error", -1, "not json"⟩ "invalid character"
    (by decide) rfl (by decide)

/-- C8: a name that is empty or consists only of whitespace makes
SearchJobs fail with the validation error, returning the client state
untouched and building no request; any other name issues exactly one GET
of the search endpoint carrying the `name` query parameter, through the
usual URL building. -/
theorem c8_search_jobs (client : Chronos) (name : String) :
    (name.toList.all goIsSpace = true →
      SearchJobs client name =
        (client, Except.error "[SearchJobs] missing name argument")) ∧
    (name.toList.all goIsSpace = false →
      (SearchJobs client name).1 =
        buildURL client ChronosAPIJobsSearch [("name", name)] ∧
      ∃ r, (SearchJobs client name).2 = Except.ok r ∧
        r.method = HTTPGet ∧
        r.path = goPathJoin client.APIPrefix ChronosAPIJobsSearch ∧
        ("name", name) ∈ r.query ∧ r.body = "") := by
  constructor
  · intro h
    have hempty : goTrimSpace name = "" := (goTrimSpace_empty_iff name).mpr h
    have hguard : ((goTrimSpace name).length == 0) = true := by
      rw [hempty]; rfl
    simp [SearchJobs, hguard]
  · intro h
    have hne : ¬goTrimSpace name = "" := by
      intro hempty
      rw [(goTrimSpace_empty_iff name).mp hempty] at h
      cases h
    have hguard : ((goTrimSpace name).length == 0) = false := by
      cases hg : ((goTrimSpace name).length == 0) with
      | false => rfl
      | true => exact absurd ((string_length_beq_zero _).mp hg) hne
    have heq : SearchJobs client name =
        (buildURL client ChronosAPIJobsSearch [("name", name)],
         Except.ok ⟨HTTPGet,
           (buildURL client ChronosAPIJobsSearch [("name", name)]).urlScheme,
           (buildURL client ChronosAPIJobsSearch [("name", name)]).urlHost,
           (buildURL client ChronosAPIJobsSearch [("name", name)]).urlPath,
           (buildURL client ChronosAPIJobsSearch [("name", name)]).urlQuery,
           ""⟩) := by
      simp [SearchJobs, hguard, apiCallBuild]
    rw [heq]
    refine ⟨rfl, ⟨_, rfl, rfl, rfl, ?_, rfl⟩⟩
    simp [buildURL]

/-- C8 witness: a whitespace-only name is rejected with the client left
untouched, while "job1" issues a GET of the search endpoint with the
`name` parameter. -/
theorem c8_search_jobs_witness :
    (SearchJobs DefaultChronos " \t " =
      (DefaultChronos, Except.error "[SearchJobs] missing name argument")) ∧
    ((SearchJobs DefaultChronos "job1").1 =
      buildURL DefaultChronos ChronosAPIJobsSearch [("name", "job1")] ∧
     ∃ r, (SearchJobs DefaultChronos "job1").2 = Except.ok r ∧
       r.method = HTTPGet ∧
       r.path = goPathJoin DefaultChronos.APIPrefix ChronosAPIJobsSearch ∧
       ("name", "job1") ∈ r.query ∧ r.body = "") :=
  ⟨(c8_search_jobs DefaultChronos " \t ").1 (by decide),
   (c8_search_jobs DefaultChronos "job1").2 (by decide)⟩

/-- C9: Init performs the list-jobs probe (a single round trip, the one
`TransportResult` it consumes) and wraps every failure of it — transport,
decoding, or service — behind the connectivity message, prefixed to the
underlying error text; when the probe succeeds Init returns no error. -/
theorem c9_init_probe (decode : String → Except String (List Job))
    (tr : TransportResult) :
    (∀ m, tr = TransportResult.fail m →
      Init decode tr = some ("Could not reach chronos cluster: " ++ m)) ∧
    (∀ resp e, tr = TransportResult.ok resp → resp.contentLength ≠ 0 →
      decode resp.body = Except.error e →
      Init decode tr = some ("Could not reach chronos cluster: " ++ e)) ∧
    (∀ resp, tr = TransportResult.ok resp →
      (resp.contentLength = 0 ∨ ∃ v, decode resp.body = Except.ok v) →
      (resp.statusCode < 200 ∨ resp.statusCode > 299) →
      Init decode tr =
        some ("Could not reach chronos cluster: " ++ resp.status)) ∧
    (∀ resp, tr = TransportResult.ok resp →
      (resp.contentLength = 0 ∨ ∃ v, decode resp.body = Except.ok v) →
      200 ≤ resp.statusCode → resp.statusCode ≤ 299 →
      Init decode tr = none) := by
  refine ⟨?_, ?_, ?_, ?_⟩
  · intro m htr
    subst htr
    simp [Init, JobsOp, apiCall, errorText]
  · intro resp e htr hcl hdec
    subst htr
    simp [Init, JobsOp, apiCall, hcl, hdec, errorText]
  · intro resp htr hok hs
    subst htr
    rcases hok with hcl | ⟨v, hv⟩
    · simp [Init, JobsOp, apiCall, hcl, hs, errorText]
    · by_cases hcl : resp.contentLength = 0
      · simp [Init, JobsOp, apiCall, hcl, hs, errorText]
      · simp [Init, JobsOp, apiCall, hcl, hv, hs, errorText]
  · intro resp htr hok h200 h299
    subst htr
    have hs : ¬(resp.statusCode < 200 ∨ resp.statusCode > 299) := by omega
    rcases hok with hcl | ⟨v, hv⟩
    · simp [Init, JobsOp, apiCall, hcl, hs]
    · by_cases hcl : resp.contentLength = 0
      · simp [Init, JobsOp, apiCall, hcl, hs]
      · simp [Init, JobsOp, apiCall, hcl, hv, hs]

/-- C9 witness: the probe against a 500/empty-body response yields the
wrapped connectivity error with the status line (matching the repository
test), and a 200/empty-body probe yields no error. -/
theorem c9_init_probe_witness :
    Init (fun _ => Except.ok [])
        (TransportResult.ok ⟨500, "500 Internal Server Error", 0, ""⟩) =
      some ("Could not reach chronos cluster: " ++ "500 Internal Server Error") ∧
    Init (fun _ => Except.ok [])
        (TransportResult.ok ⟨200, "200 OK", 0, ""⟩) = none :=
  ⟨(c9_init_probe (fun _ => Except.ok [])
      (TransportResult.ok ⟨500, "500 Internal Server Error", 0, ""⟩)).2.2.1
      ⟨500, "500 Internal Server Error", 0, ""⟩ rfl (Or.inl rfl) (by decide),
   (c9_init_probe (fun _ => Except.ok [])
      (TransportResult.ok ⟨200, "200 OK", 0, ""⟩)).2.2.2
      ⟨200, "200 OK", 0, ""⟩ rfl (Or.inl rfl) (by decide) (by decide)⟩

end ChronosGo
